import Mathlib

/-!
Verification of the configurable assessment engine and report composer of the
stress-management application.

The embedding follows `src/app/services/anxiety_test_service.py`,
`src/app/services/pdf_service.py`, `src/app/services/excel_service.py` and
`src/app/data/repositories/stress_repository.py`.

Modelling conventions:
* Parsed JSON values (`json.loads` output) are the inductive `JValue`; JSON
  numbers are restricted to integers, which covers every payload the rules
  traffic in.
* A test's stored `interpretation_rules` string is represented by the outcome
  of fetching and `json.loads`-parsing it (`RuleParse`): the Python code's
  behaviour factors exactly through that outcome, so quantifying over
  `RuleParse` quantifies over all rule strings.
* Uncaught Python exceptions are the `Except` error channel (`PyExn`);
  `logger.error` calls are an explicit log-event list.
* Python strings are sequences of Unicode code points (`String` where only
  membership/equality is needed, `List Char` where slicing is).
-/

/-- A parsed JSON value as produced by `json.loads` (numbers restricted to
integers; object fields kept in insertion order, later duplicates win via
`jget`). -/
inductive JValue where
  | null
  | bool (b : Bool)
  | num (n : Int)
  | str (s : String)
  | arr (xs : List JValue)
  | obj (fields : List (String × JValue))

/-- `dict.get(key)` on a parsed JSON object: the last binding of `key` wins,
matching Python dict construction from duplicate JSON keys. -/
def jget (fields : List (String × JValue)) (key : String) : Option JValue :=
  (fields.reverse.find? (fun p => p.1 == key)).map (fun p => p.2)

/-- Whether a JSON value is an object (a Python `dict`). -/
def JValue.isObj : JValue → Bool
  | .obj _ => true
  | _ => false

/-- `v == s` for a Python value against a string literal. -/
def JValue.isStrEq (v : JValue) (s : String) : Bool :=
  match v with
  | .str t => t == s
  | _ => false

/-- Python `==` between an `int` and an arbitrary JSON-derived value:
`int == int` numerically, `int == bool` via `True == 1`/`False == 0`,
everything else unequal. -/
def pyEqInt (n : Int) (v : JValue) : Bool :=
  match v with
  | .num m => n == m
  | .bool b => (b && n == 1) || (!b && n == 0)
  | _ => false

/-- The value of a Python object usable in `int` arithmetic/comparison:
ints are themselves, bools are `0`/`1`, everything else is not arithmetic. -/
def arithVal? : JValue → Option Int
  | .num n => some n
  | .bool b => some (if b then 1 else 0)
  | _ => none

/-- Uncaught Python exception classes relevant to the engine.  `json.JSONDecodeError`
and `KeyError` are caught by the source and hence never appear here. -/
inductive PyExn where
  | attributeError
  | typeError

/-- `logger.error` events emitted by the scoring/interpretation code. -/
inductive LogEvent where
  | answerCountMismatch
  | ruleParseError

/-- The outcome of `test.get('interpretation_rules', '')` followed by
`json.loads`: `emptyOrMissing` when the stored value is absent/`None`/empty
(falsy), `parseError` when `json.loads` raises `JSONDecodeError`, and
`parsed v` when it yields the value `v`. -/
inductive RuleParse where
  | emptyOrMissing
  | parseError
  | parsed (v : JValue)

/-- Python `question_num in reverse_questions` for an `int` against an
arbitrary JSON-derived container: list membership, always-false string-keyed
dict lookup, `TypeError` for strings (`int in str`) and non-containers. -/
def pyIn (n : Int) (v : JValue) : Except PyExn Bool :=
  match v with
  | .arr xs => .ok (xs.any (fun e => pyEqInt n e))
  | .obj _ => .ok false
  | _ => .error .typeError

/-- Python `max_option - answer` where `max_option` came out of the rule
payload: ints and bools subtract, anything else raises `TypeError`. -/
def pySubInt (v : JValue) (a : Int) : Except PyExn Int :=
  match v with
  | .num m => .ok (m - a)
  | .bool b => .ok ((if b then 1 else 0) - a)
  | _ => .error .typeError

/-- The `for i, answer in enumerate(answers)` loop of the `reverse` branch of
`AnxietyTestService.calculate_score` (lines 70–79), accumulating
`max_option - answer` for 1-based question numbers contained in
`reverse_questions` and `answer` otherwise; the first failing operation
raises. -/
def reverseLoop (rv maxOpt : JValue) : Nat → List Int → Except PyExn Int
  | _, [] => .ok 0
  | i, a :: rest =>
    match pyIn (Int.ofNat (i + 1)) rv with
    | .error e => .error e
    | .ok true =>
      match pySubInt maxOpt a with
      | .error e => .error e
      | .ok c =>
        match reverseLoop rv maxOpt (i + 1) rest with
        | .error e => .error e
        | .ok s => .ok (c + s)
    | .ok false =>
      match reverseLoop rv maxOpt (i + 1) rest with
      | .error e => .error e
      | .ok s => .ok (a + s)

/-- `AnxietyTestService.calculate_score` (lines 39–85).  `numQuestions` is the
length of the question list fetched from the repository.  Returns the
result/uncaught-exception and the list of `logger.error` events: a length
mismatch returns `0` after logging; an absent/empty rule sums the answers; a
JSON parse failure logs and sums the answers; a parsed object dispatches on
its `method` tag (`'sum'` and any unrecognized/missing tag sum the answers,
`'reverse'` runs the reverse-weighted loop); a parsed non-object raises
`AttributeError` at `rules_data.get('method', 'sum')`. -/
def calculate_score (numQuestions : Nat) (rule : RuleParse) (answers : List Int) :
    Except PyExn Int × List LogEvent :=
  if answers.length ≠ numQuestions then
    (.ok 0, [.answerCountMismatch])
  else
    match rule with
    | .emptyOrMissing => (.ok answers.sum, [])
    | .parseError => (.ok answers.sum, [.ruleParseError])
    | .parsed (.obj fields) =>
      match jget fields "method" with
      | none => (.ok answers.sum, [])
      | some mv =>
        if mv.isStrEq "sum" then (.ok answers.sum, [])
        else if mv.isStrEq "reverse" then
          (reverseLoop ((jget fields "reverse_questions").getD (.arr []))
            ((jget fields "max_option_value").getD (.num 3)) 0 answers, [])
        else (.ok answers.sum, [])
    | .parsed _ => (.error .attributeError, [])

/-- `AnxietyTestService.calculate_percentage` would round a float with
Python's `round(x, 2)`: nearest multiple of `1/100`, ties to even
(real-number semantics for the float arithmetic).  `rhe q` is the half-even
rounding of `q` to an integer. -/
def rhe (q : ℚ) : ℤ :=
  if q - ⌊q⌋ < 1 / 2 then ⌊q⌋
  else if q - ⌊q⌋ > 1 / 2 then ⌊q⌋ + 1
  else if 2 ∣ ⌊q⌋ then ⌊q⌋ else ⌊q⌋ + 1

/-- Python `round(x, 2)` under real-number semantics. -/
def pyRound2 (x : ℚ) : ℚ := (rhe (x * 100) : ℚ) / 100

/-- `AnxietyTestService.calculate_percentage` (lines 87–91). -/
def calculate_percentage (score maxScore : Int) : ℚ :=
  if maxScore = 0 then 0
  else pyRound2 ((score : ℚ) / (maxScore : ℚ) * 100)

/-- Stable insertion sort, descending by an integer key: the unique stable
descending order, hence the order produced by Python's
`list.sort(key=..., reverse=True)` (Timsort is stable, and a stable sort for
a fixed key function is unique as a function). -/
def insertDescBy {α : Type} (k : α → Int) (x : α) : List α → List α
  | [] => [x]
  | y :: ys => if k y ≤ k x then x :: y :: ys else y :: insertDescBy k x ys

/-- See `insertDescBy`. -/
def sortDescBy {α : Type} (k : α → Int) : List α → List α
  | [] => []
  | x :: xs => insertDescBy k x (sortDescBy k xs)

/-- The sort key `x.get('max_score', 0)` of a threshold entry, before the
arithmetic coercion (used to detect non-arithmetic keys). -/
def thrRawKey (t : JValue) : JValue :=
  match t with
  | .obj f => (jget f "max_score").getD (.num 0)
  | _ => .num 0

/-- The integer sort key of `thresholds.sort(key=lambda x: x.get('max_score', 0))`
for a threshold entry already known to be an object with an arithmetic key
(the junk value elsewhere is never reached: those entries raise first). -/
def thrSortKey (t : JValue) : Int :=
  (arithVal? (thrRawKey t)).getD 0

/-- The comparison key `threshold.get('max_score', 999)` of the resolution
loop (note the different default from the sort key). -/
def thrCmpKey (t : JValue) : Int :=
  match t with
  | .obj f => (arithVal? ((jget f "max_score").getD (.num 999))).getD 0
  | _ => 0

/-- `threshold.get('interpretation', '')` of a threshold entry. -/
def thrInterp (t : JValue) : JValue :=
  match t with
  | .obj f => (jget f "interpretation").getD (.str "")
  | _ => .str ""

/-- `AnxietyTestService.get_interpretation` (lines 93–123).  The `percentage`
argument mirrors the Python signature and is never read.  Returns the Python
return value (a `JValue`: `threshold.get('interpretation', '')` need not be a
string) or the uncaught exception, plus the log events.

Exception modelling of the sort/loop: `list.sort(key=f)` first applies `f`
to every element (so a non-dict element raises `AttributeError` before any
comparison), and whenever some key is non-arithmetic the observable outcome
is always `TypeError` — either the sort must compare across the type
boundary, or (when the sort performs no such comparison, e.g. a single
element or keys of one non-arithmetic type) the loop's very first
`score <= threshold.get('max_score', 999)` comparison on the sorted list
raises before anything is returned.  Both checks are therefore modelled
up front. -/
def get_interpretation (rule : RuleParse) (score : Int) (percentage : ℚ) :
    Except PyExn JValue × List LogEvent :=
  match rule with
  | .emptyOrMissing => (.ok (.str ""), [])
  | .parseError => (.ok (.str ""), [.ruleParseError])
  | .parsed (.obj fields) =>
    match (jget fields "thresholds").getD (.arr []) with
    | .arr ts =>
      if ts.any (fun t => !t.isObj) then (.error .attributeError, [])
      else if ts.any (fun t => (arithVal? (thrRawKey t)).isNone) then
        (.error .typeError, [])
      else
        match (sortDescBy thrSortKey ts).find? (fun t => score ≤ thrCmpKey t) with
        | some t => (.ok (thrInterp t), [])
        | none => (.ok (.str ""), [])
    | _ => (.error .attributeError, [])
  | .parsed _ => (.error .attributeError, [])

/-- A threshold as the spec describes it: a `max_score` bound and an
`interpretation` text.  `encodeThr` is its JSON form inside the rule
payload. -/
def encodeThr (p : Int × String) : JValue :=
  .obj [("max_score", .num p.1), ("interpretation", .str p.2)]

/-- Modelled from the spec's words (§4.2/§8): sort the thresholds descending
by `max_score` and return the text of the first one with `max_score >= score`,
or the empty string when none qualifies. -/
def specInterpret (L : List (Int × String)) (score : Int) : String :=
  match (sortDescBy (fun p => p.1) L).find? (fun p => score ≤ p.1) with
  | some p => p.2
  | none => ""

/-- Spec-side reverse-weighted score (§4.1/§8): position `i` (0-based)
contributes `m - answers[i]` when the 1-based number `i+1` is in `R`, and
`answers[i]` otherwise. -/
def specReverseScore (R : List Int) (m : Int) (answers : List Int) : Int :=
  ((answers.enum).map (fun p => if ((p.1 : Int) + 1) ∈ R then m - p.2 else p.2)).sum

/-- Whether a string contains a character of the Arabic/Persian Unicode
ranges `U+0600–U+06FF` or `U+0750–U+077F`
(`PDFService._prepare_rtl_text`, lines 84–85). -/
def hasRtlChar (text : String) : Bool :=
  text.data.any (fun c =>
    (0x600 ≤ c.toNat && c.toNat ≤ 0x6FF) || (0x750 ≤ c.toNat && c.toNat ≤ 0x77F))

/-- `PDFService._prepare_rtl_text` (lines 67–96).  `shaper` is the composed
external call `bidi_algorithm.get_display(arabic_reshaper.reshape(text))`,
opaque to this development; its `.error` case is the library raising, which
the source catches, returning the original text.  `rtlSupport`/`hasPersianFont`
are the module/instance flags guarding the shaping branch. -/
def prepare_rtl_text (shaper : String → Except Unit String)
    (rtlSupport hasPersianFont : Bool) (text : String) : String :=
  if text = "" then text
  else if rtlSupport && hasPersianFont then
    if hasRtlChar text then
      match shaper text with
      | .ok shaped => shaped
      | .error _ => text
    else text
  else text

/-- The notes cell of the stress-log detail table in
`PDFService.export_stress_report` (lines 249–253), before the RTL shaping
pass: a missing/empty (falsy) notes value renders as `"-"`, and a value
longer than 50 characters is truncated to its first 47 followed by `"..."`.
Python strings are modelled as lists of code points. -/
def notesCellStressPdf (notes : Option (List Char)) : List Char :=
  let s := match notes with
    | none => ['-']
    | some t => if t = [] then ['-'] else t
  if s.length > 50 then s.take 47 ++ ['.', '.', '.'] else s

/-- The notes cell of the stress-log detail table in
`PDFService.export_combined_report` (lines 455–458): same computation as
`notesCellStressPdf`. -/
def notesCellCombinedPdf (notes : Option (List Char)) : List Char :=
  let s := match notes with
    | none => ['-']
    | some t => if t = [] then ['-'] else t
  if s.length > 50 then s.take 47 ++ ['.', '.', '.'] else s

/-- The notes cell of the stress-log detail table in
`ExcelService.export_stress_report` (line 260), before the RTL shaping pass:
the placeholder for falsy values, and no truncation at any length. -/
def notesCellStressExcel (notes : Option (List Char)) : List Char :=
  match notes with
  | none => ['-']
  | some t => if t = [] then ['-'] else t

/-- A row of the `stress_logs` table as read by the period-average query
(dates as day numbers: ISO-8601 text compares chronologically). -/
structure StressLog where
  userId : Int
  date : Int
  stressLevel : Int
deriving DecidableEq

/-- The `WHERE` clause of `StressRepository.get_average_by_user`
(lines 193–197): `user_id = ? AND date >= date('now', '-days days')`.
Note there is no upper date bound. -/
def inQueryWindow (uid today days : Int) (l : StressLog) : Bool :=
  l.userId == uid && decide (today - days ≤ l.date)

/-- `StressRepository.get_average_by_user` (lines 180–199): SQL
`AVG(stress_level)` over the filtered rows is `NULL` exactly when no row
matches (the column is `NOT NULL`), which the Python maps to `None`;
otherwise the mean as a float (here `ℚ`). -/
def get_average_by_user (logs : List StressLog) (uid today days : Int) : Option ℚ :=
  if (logs.filter (inQueryWindow uid today days)).isEmpty then none
  else
    some (((logs.filter (inQueryWindow uid today days)).map
        (fun l => (l.stressLevel : ℚ))).sum /
      (logs.filter (inQueryWindow uid today days)).length)

/-- `StressService.get_average_stress` (lines 124–135) delegates to the
repository unchanged. -/
def get_average_stress (logs : List StressLog) (uid today days : Int) : Option ℚ :=
  get_average_by_user logs uid today days

theorem JValue.isStrEq_true_iff (v : JValue) (s : String) :
    v.isStrEq s = true ↔ v = .str s := by
  cases v <;> simp [JValue.isStrEq]

theorem any_pyEqInt_map_num (R : List Int) (n : Int) :
    (R.map JValue.num).any (fun e => pyEqInt n e) = decide (n ∈ R) := by
  induction R with
  | nil => rfl
  | cons k ks ih =>
    have hhead : pyEqInt n (JValue.num k) = (n == k) := rfl
    simp only [List.map_cons, List.any_cons, hhead, ih, List.mem_cons]
    by_cases h : n = k
    · simp [h]
    · have hb : (n == k) = false := beq_eq_false_iff_ne.mpr h
      simp [h, hb]

theorem reverseLoop_spec (R : List Int) (m : Int) (answers : List Int) :
    ∀ j : Nat,
      reverseLoop (.arr (R.map JValue.num)) (.num m) j answers =
        .ok (((answers.enumFrom j).map
          (fun p => if ((p.1 : Int) + 1) ∈ R then m - p.2 else p.2)).sum) := by
  induction answers with
  | nil => intro j; rfl
  | cons a rest ih =>
    intro j
    have hc : (Int.ofNat (j + 1)) = (j : Int) + 1 := rfl
    by_cases h : ((j : Int) + 1) ∈ R <;>
      simp [reverseLoop, pyIn, any_pyEqInt_map_num, hc, h, pySubInt, ih (j + 1),
        List.enumFrom, List.map_cons, List.sum_cons]

/-- C1: for every test and answers list of matching length, an absent/empty
rule, a parsed-object rule whose `method` tag is `'sum'`, and a parsed-object
rule with any unrecognized (non-`'reverse'`) or missing `method` tag all
score as the plain sum of the raw answer indices. -/
theorem sum_rule_scores_by_plain_sum (n : Nat) (rule : RuleParse) (answers : List Int)
    (hlen : answers.length = n)
    (hrule : rule = .emptyOrMissing ∨
      ∃ fields, rule = .parsed (.obj fields) ∧
        jget fields "method" ≠ some (.str "reverse")) :
    (calculate_score n rule answers).1 = .ok answers.sum := by
  subst hlen
  rcases hrule with h | ⟨fields, hf, hm⟩
  · subst h; simp [calculate_score]
  · subst hf
    simp only [calculate_score, ne_eq, not_true_eq_false, if_false]
    cases hjm : jget fields "method" with
    | none => simp
    | some mv =>
      by_cases hs : mv.isStrEq "sum"
      · simp [hs]
      · have hrv : mv.isStrEq "reverse" = false := by
          rw [Bool.eq_false_iff]
          intro hx
          exact hm (hjm ▸ congrArg some ((JValue.isStrEq_true_iff mv "reverse").mp hx))
        simp [hs, hrv]

/-- C1 witness: an empty rule on a two-question test scores `[1, 2]` as `3`. -/
theorem sum_rule_scores_by_plain_sum_witness :
    (calculate_score 2 .emptyOrMissing [1, 2]).1 = .ok 3 :=
  sum_rule_scores_by_plain_sum 2 .emptyOrMissing [1, 2] rfl (Or.inl rfl)

/-- C2: a rule object with `method` tag `'reverse'`, reverse-question list `R`
and `max_option_value` `m` (defaulting to `3` when the key is absent) scores
position `i` as `m - answers[i]` when `i+1 ∈ R` and as `answers[i]`
otherwise, for arbitrary integer answers (no range validation). -/
theorem reverse_rule_scores_by_reverse_weighting
    (n : Nat) (fields : List (String × JValue)) (R : List Int) (m : Int)
    (answers : List Int)
    (hlen : answers.length = n)
    (hm : jget fields "method" = some (.str "reverse"))
    (hr : jget fields "reverse_questions" = some (.arr (R.map JValue.num)))
    (hmax : jget fields "max_option_value" = some (.num m) ∨
            (jget fields "max_option_value" = none ∧ m = 3)) :
    (calculate_score n (.parsed (.obj fields)) answers).1 =
      .ok (specReverseScore R m answers) := by
  subst hlen
  have henum : specReverseScore R m answers =
      ((answers.enumFrom 0).map
        (fun p => if ((p.1 : Int) + 1) ∈ R then m - p.2 else p.2)).sum := rfl
  rcases hmax with h | ⟨h, hm3⟩
  · simp [calculate_score, hm, hr, h, JValue.isStrEq, henum, reverseLoop_spec]
  · subst hm3
    simp [calculate_score, hm, hr, h, JValue.isStrEq, henum, reverseLoop_spec]

/-- C2 witness: method `'reverse'`, `R = [1]`, `max_option_value = 4` on a
two-question test scores `[1, 2]` as `(4 - 1) + 2 = 5`. -/
theorem reverse_rule_scores_by_reverse_weighting_witness :
    (calculate_score 2
      (.parsed (.obj [("method", .str "reverse"),
                      ("reverse_questions", .arr [.num 1]),
                      ("max_option_value", .num 4)])) [1, 2]).1 = .ok 5 := by
  have h := reverse_rule_scores_by_reverse_weighting 2
    [("method", .str "reverse"), ("reverse_questions", .arr [.num 1]),
     ("max_option_value", .num 4)] [1] 4 [1, 2] rfl rfl rfl (Or.inl rfl)
  rw [h]
  rfl

/-- C3: whenever the answers list's length differs from the question count,
`calculate_score` returns `0` for every rule, logs exactly the mismatch
event, and raises nothing. -/
theorem mismatched_answer_count_degrades_to_zero
    (n : Nat) (rule : RuleParse) (answers : List Int)
    (hlen : answers.length ≠ n) :
    calculate_score n rule answers = (.ok 0, [.answerCountMismatch]) := by
  simp [calculate_score, hlen]

/-- C3 witness: one answer for a two-question test scores `0` with the
mismatch logged, under a `'sum'` rule. -/
theorem mismatched_answer_count_degrades_to_zero_witness :
    calculate_score 2 (.parsed (.obj [("method", .str "sum")])) [1] =
      (.ok 0, [.answerCountMismatch]) :=
  mismatched_answer_count_degrades_to_zero 2
    (.parsed (.obj [("method", .str "sum")])) [1] (by decide)

/-- C5: `calculate_percentage` equals `round(score / max_score * 100, 2)` for
every positive `max_score` and equals `0` when `max_score = 0` (the division
is guarded). -/
theorem percentage_guard_and_formula (score maxScore : Int) :
    (0 < maxScore → calculate_percentage score maxScore =
        pyRound2 ((score : ℚ) / (maxScore : ℚ) * 100))
    ∧ (maxScore = 0 → calculate_percentage score maxScore = 0) := by
  constructor
  · intro h
    rw [calculate_percentage, if_neg (by omega)]
  · intro h
    simp [calculate_percentage, h]

/-- C5 witness: `50/200` gives the rounded `25%`, and a zero maximum gives
`0`. -/
theorem percentage_guard_and_formula_witness :
    calculate_percentage 50 200 = pyRound2 ((50 : ℚ) / (200 : ℚ) * 100)
    ∧ calculate_percentage 7 0 = 0 :=
  ⟨(percentage_guard_and_formula 50 200).1 (by norm_num),
   (percentage_guard_and_formula 7 0).2 rfl⟩

theorem any_map' {α β : Type} (f : β → α) (p : α → Bool) (l : List β) :
    (l.map f).any p = l.any (fun b => p (f b)) := by
  induction l with
  | nil => rfl
  | cons x xs ih => simp [List.any_cons, ih]

theorem insertDescBy_map {α β : Type} (k : α → Int) (k' : β → Int) (f : β → α)
    (hk : ∀ b, k (f b) = k' b) (x : β) (l : List β) :
    insertDescBy k (f x) (l.map f) = (insertDescBy k' x l).map f := by
  induction l with
  | nil => rfl
  | cons y ys ih =>
    simp only [List.map_cons, insertDescBy, hk]
    by_cases h : k' y ≤ k' x
    · simp [h]
    · simp [h, ih]

theorem sortDescBy_map {α β : Type} (k : α → Int) (k' : β → Int) (f : β → α)
    (hk : ∀ b, k (f b) = k' b) (l : List β) :
    sortDescBy k (l.map f) = (sortDescBy k' l).map f := by
  induction l with
  | nil => rfl
  | cons x xs ih =>
    simp only [List.map_cons, sortDescBy, ih]
    exact insertDescBy_map k k' f hk x (sortDescBy k' xs)

theorem encodeThr_isObj (q : Int × String) : (encodeThr q).isObj = true := rfl

theorem arithVal_thrRawKey_encodeThr (q : Int × String) :
    arithVal? (thrRawKey (encodeThr q)) = some q.1 := rfl

theorem thrSortKey_encodeThr (q : Int × String) : thrSortKey (encodeThr q) = q.1 := rfl

theorem thrCmpKey_encodeThr (q : Int × String) : thrCmpKey (encodeThr q) = q.1 := rfl

theorem thrInterp_encodeThr (q : Int × String) : thrInterp (encodeThr q) = .str q.2 := rfl

/-- C4: on a rule object whose `thresholds` entry encodes the threshold list
`L`, `get_interpretation` returns the `interpretation` text of the first
threshold of `L` in stable descending `max_score` order whose
`max_score >= score` (empty string when none qualifies, in particular when
`L` is empty or the score exceeds every bound), and it returns the empty
string on an absent/empty rule and on a rule that is not valid JSON. -/
theorem interpretation_resolves_first_descending_threshold
    (fields : List (String × JValue)) (L : List (Int × String))
    (score : Int) (p : ℚ)
    (hth : jget fields "thresholds" = some (.arr (L.map encodeThr))) :
    (get_interpretation (.parsed (.obj fields)) score p).1 =
      .ok (.str (specInterpret L score))
    ∧ (get_interpretation .emptyOrMissing score p).1 = .ok (.str "")
    ∧ (get_interpretation .parseError score p).1 = .ok (.str "") := by
  refine ⟨?_, rfl, rfl⟩
  have hobj : (L.map encodeThr).any (fun t => !t.isObj) = false := by
    rw [any_map']
    simp [encodeThr_isObj]
  have harith :
      (L.map encodeThr).any (fun t => (arithVal? (thrRawKey t)).isNone) = false := by
    rw [any_map']
    simp [arithVal_thrRawKey_encodeThr]
  have hsort : sortDescBy thrSortKey (L.map encodeThr) =
      (sortDescBy (fun q : Int × String => q.1) L).map encodeThr :=
    sortDescBy_map thrSortKey (fun q => q.1) encodeThr thrSortKey_encodeThr L
  have hpred : ((fun t => decide (score ≤ thrCmpKey t)) ∘ encodeThr) =
      (fun q : Int × String => decide (score ≤ q.1)) := by
    funext q
    simp [Function.comp, thrCmpKey_encodeThr]
  simp only [get_interpretation, hth, Option.getD_some, hobj, harith,
    Bool.false_eq_true, if_false, hsort, List.find?_map, hpred, specInterpret]
  cases hfind : (sortDescBy (fun q : Int × String => q.1) L).find?
      (fun q => decide (score ≤ q.1)) with
  | none => rfl
  | some q => simp [thrInterp_encodeThr]

/-- C4 witness: thresholds `13/26/40`, score `10` resolves to the text of the
first descending threshold with `max_score >= 10`, i.e. the `40` band. -/
theorem interpretation_resolves_first_descending_threshold_witness :
    (get_interpretation (.parsed (.obj [("thresholds",
      .arr (([(13, "low"), (26, "mid"), (40, "high")] : List (Int × String)).map
        encodeThr))])) 10 0).1 = .ok (.str "high") := by
  have h := (interpretation_resolves_first_descending_threshold
    [("thresholds",
      .arr (([(13, "low"), (26, "mid"), (40, "high")] : List (Int × String)).map
        encodeThr))]
    [(13, "low"), (26, "mid"), (40, "high")] 10 0 rfl).1
  rw [h]
  rfl

/-- C6 counterexample: a rule string holding the valid JSON array `[]` makes
`calculate_score` raise `AttributeError` (at `rules_data.get('method', 'sum')`)
instead of degrading to `sum(answers)`, and a rule string holding the valid
JSON number `5` makes `get_interpretation` raise `AttributeError` instead of
returning the empty string. -/
theorem nonobject_json_rule_raises :
    (calculate_score 1 (.parsed (.arr [])) [0]).1 = .error .attributeError
    ∧ (get_interpretation (.parsed (.num 5)) 0 0).1 = .error .attributeError :=
  ⟨rfl, rfl⟩

/-- C6 amended: for every rule string that is absent/empty or not valid JSON,
`calculate_score` degrades to `sum(answers)` (to `0` on an answer-count
mismatch) and `get_interpretation` degrades to the empty string, neither
raising; but a rule string parsing to a non-object JSON value (array, number,
string, boolean, null) raises `AttributeError` in both operations when the
guarded paths are reached. -/
theorem safe_rule_degradation_and_nonobject_raise
    (n : Nat) (rule : RuleParse) (answers : List Int) (score : Int) (p : ℚ)
    (v : JValue)
    (hsafe : rule = .emptyOrMissing ∨ rule = .parseError)
    (hobj : v.isObj = false) :
    ((answers.length = n → (calculate_score n rule answers).1 = .ok answers.sum)
      ∧ (answers.length ≠ n → (calculate_score n rule answers).1 = .ok 0)
      ∧ (get_interpretation rule score p).1 = .ok (.str ""))
    ∧ ((answers.length = n →
          (calculate_score n (.parsed v) answers).1 = .error .attributeError)
      ∧ (get_interpretation (.parsed v) score p).1 = .error .attributeError) := by
  constructor
  · refine ⟨?_, ?_, ?_⟩
    · intro hlen
      rcases hsafe with h | h <;> subst h <;> simp [calculate_score, hlen]
    · intro hlen
      rcases hsafe with h | h <;> subst h <;> simp [calculate_score, hlen]
    · rcases hsafe with h | h <;> subst h <;> rfl
  · constructor
    · intro hlen
      cases v <;> simp_all [calculate_score, JValue.isObj]
    · cases v <;> simp_all [get_interpretation, JValue.isObj]

/-- C6 witness: an unparseable rule on a one-question test degrades to
`sum([2]) = 2` and the empty interpretation, while the non-object JSON rule
`null` raises `AttributeError` in both operations. -/
theorem safe_rule_degradation_and_nonobject_raise_witness :
    ((calculate_score 1 .parseError [2]).1 = .ok 2
      ∧ (get_interpretation .parseError 4 0).1 = .ok (.str ""))
    ∧ ((calculate_score 1 (.parsed .null) [2]).1 = .error .attributeError
      ∧ (get_interpretation (.parsed .null) 4 0).1 = .error .attributeError) := by
  have h := safe_rule_degradation_and_nonobject_raise 1 .parseError [2] 4 0 .null
    (Or.inr rfl) rfl
  exact ⟨⟨h.1.1 rfl, h.1.2.2⟩, ⟨h.2.1 rfl, h.2.2⟩⟩

/-- A test record as `get_interpretation` sees it: the stored
`interpretation_rules` string, by its parse outcome.  The in-place
`thresholds.sort` of the source acts on the fresh `json.loads` result of each
call, never on this stored string, so a call leaves the test unchanged;
`get_interpretation_call` makes the post-call test state explicit. -/
structure TestDef where
  rule : RuleParse

/-- One call of `AnxietyTestService.get_interpretation` on a test record,
returning the result together with the test state after the call. -/
def get_interpretation_call (test : TestDef) (score : Int) (p : ℚ) :
    (Except PyExn JValue × List LogEvent) × TestDef :=
  (get_interpretation test.rule score p, test)

/-- C7: `get_interpretation` leaves the test unchanged, so a second call on
the post-call state returns the same result (idempotence despite the internal
in-place sort, which only touches the per-call parse), and the result is
independent of the `percentage` argument, which is never read. -/
theorem interpretation_idempotent_and_ignores_percentage
    (test : TestDef) (score : Int) (p1 p2 : ℚ) :
    (get_interpretation_call test score p1).2 = test
    ∧ (get_interpretation_call ((get_interpretation_call test score p1).2)
        score p1).1 = (get_interpretation_call test score p1).1
    ∧ (get_interpretation_call test score p1).1 =
        (get_interpretation_call test score p2).1 :=
  ⟨rfl, rfl, rfl⟩

/-- C8: the PDF text shaper is the identity on every string (the empty one
included) with no character in `U+0600–U+06FF` or `U+0750–U+077F`, for every
shaping backend and flag setting; and whenever the shaping backend raises,
the original text is returned unchanged. -/
theorem rtl_shaper_identity_on_non_rtl
    (shaper : String → Except Unit String) (rs hpf : Bool) (text : String) :
    (hasRtlChar text = false → prepare_rtl_text shaper rs hpf text = text)
    ∧ (shaper text = .error () → prepare_rtl_text shaper rs hpf text = text) := by
  constructor
  · intro h
    unfold prepare_rtl_text
    split
    · rfl
    · split
      · simp [h]
      · rfl
  · intro h
    unfold prepare_rtl_text
    split
    · rfl
    · split
      · split
        · simp [h]
        · rfl
      · rfl

/-- C8 witness: `"abc"` has no RTL character and passes through an
always-failing shaper unchanged. -/
theorem rtl_shaper_identity_on_non_rtl_witness :
    prepare_rtl_text (fun _ => .error ()) true true "abc" = "abc"
    ∧ prepare_rtl_text (fun _ => .error ()) true true "abc" = "abc" :=
  ⟨(rtl_shaper_identity_on_non_rtl (fun _ => .error ()) true true "abc").1 (by decide),
   (rtl_shaper_identity_on_non_rtl (fun _ => .error ()) true true "abc").2 rfl⟩

/-- C9 counterexample: an empty notes string has length `0 ≤ 50` yet is not
placed unchanged — both the flow (PDF) and the grid (Excel) composer replace
a falsy notes value with the placeholder `"-"`. -/
theorem empty_notes_become_placeholder :
    notesCellStressPdf (some []) = ['-'] ∧ notesCellStressPdf (some []) ≠ []
    ∧ notesCellStressExcel (some []) = ['-'] ∧ notesCellStressExcel (some []) ≠ [] :=
  ⟨rfl, by decide, rfl, by decide⟩

/-- C9 amended: for nonempty notes, both flow-document composers truncate a
value longer than 50 characters to its first 47 followed by `"..."` (cell
length exactly 50) and place values of length at most 50 unchanged, while the
grid composer places nonempty notes of every length unchanged; missing or
empty notes render as the placeholder `"-"` in all three composers. -/
theorem notes_truncation_policy (s : List Char) (hs : s ≠ []) :
    (50 < s.length →
        notesCellStressPdf (some s) = s.take 47 ++ ['.', '.', '.']
        ∧ (notesCellStressPdf (some s)).length = 50
        ∧ notesCellCombinedPdf (some s) = s.take 47 ++ ['.', '.', '.']
        ∧ (notesCellCombinedPdf (some s)).length = 50)
    ∧ (s.length ≤ 50 →
        notesCellStressPdf (some s) = s ∧ notesCellCombinedPdf (some s) = s)
    ∧ notesCellStressExcel (some s) = s
    ∧ notesCellStressPdf none = ['-'] ∧ notesCellCombinedPdf none = ['-']
    ∧ notesCellStressExcel none = ['-'] := by
  refine ⟨?_, ?_, ?_, rfl, rfl, rfl⟩
  · intro h
    have h50 : (s.take 47 ++ ['.', '.', '.']).length = 50 := by
      simp [List.length_append, List.length_take]
      omega
    refine ⟨?_, ?_, ?_, ?_⟩ <;>
      simp [notesCellStressPdf, notesCellCombinedPdf, hs, h, h50]
  · intro h
    constructor <;> simp [notesCellStressPdf, notesCellCombinedPdf, hs] <;> omega
  · simp [notesCellStressExcel, hs]

/-- C9 amended witness: a one-character notes value passes through all three
composers unchanged. -/
theorem notes_truncation_policy_witness :
    notesCellStressPdf (some ['a']) = ['a']
    ∧ notesCellCombinedPdf (some ['a']) = ['a']
    ∧ notesCellStressExcel (some ['a']) = ['a'] :=
  ⟨((notes_truncation_policy ['a'] (by decide)).2.1 (by decide)).1,
   ((notes_truncation_policy ['a'] (by decide)).2.1 (by decide)).2,
   (notes_truncation_policy ['a'] (by decide)).2.2.1⟩

/-- C10 counterexample: a record dated after `today` is outside the last-7-days
window `[today - 7, today]`, yet the repository query counts it: the user's
only record is dated `today + 100` and the aggregate returns its value
`some 5`, not the `None` sentinel. -/
theorem future_dated_record_counted :
    ((([⟨1, 200, 5⟩] : List StressLog)).filter
      (fun l => l.userId == 1 && decide (100 - 7 ≤ l.date) && decide (l.date ≤ 100))
        = [])
    ∧ get_average_by_user [⟨1, 200, 5⟩] 1 100 7 = some 5 := by
  constructor
  · rfl
  · norm_num [get_average_by_user, inQueryWindow, List.filter]

/-- C10 amended: the period aggregate returns the `None` sentinel (never `0`)
exactly when the user has no record dated on or after `today - days` — there
is no upper date bound, so future-dated records count — and otherwise the
numeric mean of the stress levels of all such records. -/
theorem average_none_iff_no_qualifying_record
    (logs : List StressLog) (uid today days : Int) :
    (get_average_by_user logs uid today days = none ↔
        ∀ l ∈ logs, ¬(l.userId = uid ∧ today - days ≤ l.date))
    ∧ (∀ l ∈ logs, l.userId = uid → today - days ≤ l.date →
        get_average_by_user logs uid today days =
          some (((logs.filter (inQueryWindow uid today days)).map
              (fun l => (l.stressLevel : ℚ))).sum /
            (logs.filter (inQueryWindow uid today days)).length)) := by
  constructor
  · unfold get_average_by_user
    split
    · rename_i hemp
      simp only [List.isEmpty_iff, List.filter_eq_nil_iff, inQueryWindow] at hemp
      simp only [true_iff]
      intro l hl hcond
      exact hemp l hl (by simp [hcond.1, hcond.2])
    · rename_i hemp
      simp only [List.isEmpty_iff, List.filter_eq_nil_iff, inQueryWindow] at hemp
      push_neg at hemp
      obtain ⟨l, hl, hcond⟩ := hemp
      simp only [Bool.and_eq_true, beq_iff_eq, decide_eq_true_eq] at hcond
      constructor
      · intro hnone
        exact absurd hnone (by simp)
      · intro hall
        exact absurd ⟨hcond.1, hcond.2⟩ (hall l hl)
  · intro l hl h1 h2
    unfold get_average_by_user
    split
    · rename_i hemp
      simp only [List.isEmpty_iff, List.filter_eq_nil_iff, inQueryWindow] at hemp
      exact absurd (by simp [h1, h2]) (hemp l hl)
    · rfl

/-- C10 amended witness: a single qualifying record dated `today` yields its
own level as the average. -/
theorem average_none_iff_no_qualifying_record_witness :
    get_average_by_user [⟨1, 100, 4⟩] 1 100 7 =
      some (((([⟨1, 100, 4⟩] : List StressLog).filter (inQueryWindow 1 100 7)).map
          (fun l => (l.stressLevel : ℚ))).sum /
        (([⟨1, 100, 4⟩] : List StressLog).filter (inQueryWindow 1 100 7)).length) :=
  (average_none_iff_no_qualifying_record [⟨1, 100, 4⟩] 1 100 7).2
    ⟨1, 100, 4⟩ (by simp) rfl (by norm_num)
